import Mathlib

/-!
Shallow embedding of the `set-anchor` bridge daemon (crate `set-anchor`,
sources `src/anchor/src/{types,client,service,health,main}.rs`) and proofs
about its control loop, circuit breaker, statistics record, health surface
wiring, and byte-encoding helpers.

Modelling conventions:
* `u32`/`u64` counters are modelled as `Nat` (none of the verified paths
  can overflow in a way the claims depend on).
* timestamps (`chrono::DateTime<Utc>`, `std::time::Instant`) are modelled
  as `Int` seconds; `Utc::now()` / `Instant::now()` become an explicit
  `now : Int` argument threaded to every operation that reads the clock.
* Rust strings holding hex data are modelled as `List Char`; free-form
  error messages are modelled as `String`.
* network effects (gas-price read, pending fetch, `commitBatch`
  submission, `notifyAnchored`) are modelled as oracle functions in a
  `CycleEnv` record, and each function additionally returns the list of
  external `Action`s it performed, so that claims about which calls
  happen (and in which order) are statable.
-/

namespace SetAnchor

/-- 128-bit identifier (`uuid::Uuid`), as its 16 bytes. -/
def Uuid : Type := { l : List Nat // l.length = 16 }

instance : DecidableEq Uuid := fun a b =>
  decidable_of_iff (a.val = b.val) Subtype.ext_iff.symm

/-- `types.rs`: `CircuitBreakerState` (`Closed` / `HalfOpen` / `Open`;
`Open` is spelled `opened` because `open` is a Lean keyword). -/
inductive CircuitBreakerState
  | closed
  | halfOpen
  | opened
deriving DecidableEq

/-- `#[default]` on `Closed`. -/
def CircuitBreakerState.default : CircuitBreakerState := .closed

/-- `types.rs`: `ErrorType` (failure category passed to `record_failure`). -/
inductive ErrorType
  | l2Connection
  | sequencerApi
  | transaction
  | other
deriving DecidableEq

/-- `types.rs`: `CircuitBreaker`. -/
structure CircuitBreaker where
  state : CircuitBreakerState
  failure_threshold : Nat
  reset_timeout_secs : Nat
  last_failure_time : Option Int
  half_open_success_count : Nat
  half_open_success_threshold : Nat
deriving DecidableEq

/-- `impl Default for CircuitBreaker`. -/
def CircuitBreaker.default : CircuitBreaker :=
  { state := .closed
    failure_threshold := 5
    reset_timeout_secs := 60
    last_failure_time := none
    half_open_success_count := 0
    half_open_success_threshold := 3 }

/-- `CircuitBreaker::new`. -/
def CircuitBreaker.new (failure_threshold reset_timeout_secs : Nat) : CircuitBreaker :=
  { CircuitBreaker.default with
      failure_threshold := failure_threshold
      reset_timeout_secs := reset_timeout_secs }

/-- `CircuitBreaker::allow_request` (`&mut self`): returns the decision and
the updated breaker.  In the `Open` state, `elapsed.num_seconds() >=
reset_timeout_secs as i64` becomes `now - t ≥ reset_timeout_secs`. -/
def CircuitBreaker.allow_request (cb : CircuitBreaker) (now : Int) :
    Bool × CircuitBreaker :=
  match cb.state with
  | .closed => (true, cb)
  | .opened =>
      match cb.last_failure_time with
      | some t =>
          if now - t ≥ (cb.reset_timeout_secs : Int) then
            (true, { cb with state := .halfOpen, half_open_success_count := 0 })
          else
            (false, cb)
      | none => (false, cb)
  | .halfOpen => (true, cb)

/-- `CircuitBreaker::record_success`. -/
def CircuitBreaker.record_success (cb : CircuitBreaker) : CircuitBreaker :=
  match cb.state with
  | .halfOpen =>
      let cnt := cb.half_open_success_count + 1
      if cnt ≥ cb.half_open_success_threshold then
        { cb with state := .closed, half_open_success_count := 0 }
      else
        { cb with half_open_success_count := cnt }
  | .closed => cb
  | .opened => { cb with state := .closed }

/-- `CircuitBreaker::record_failure` (caller passes the current
consecutive-failure count). -/
def CircuitBreaker.record_failure (cb : CircuitBreaker) (now : Int)
    (consecutive_failures : Nat) : CircuitBreaker :=
  let cb := { cb with last_failure_time := some now }
  match cb.state with
  | .closed =>
      if consecutive_failures ≥ cb.failure_threshold then
        { cb with state := .opened }
      else cb
  | .halfOpen => { cb with state := .opened, half_open_success_count := 0 }
  | .opened => cb

/-- `types.rs`: `AnchorStats`. -/
structure AnchorStats where
  total_anchored : Nat
  total_failed : Nat
  total_events_anchored : Nat
  last_anchor_time : Option Int
  last_batch_id : Option Uuid
  consecutive_failures : Nat
  l2_connection_failures : Nat
  sequencer_api_failures : Nat
  gas_price_skips : Nat
  avg_anchor_time_ms : Nat
  last_l2_healthy : Option Int
  last_sequencer_healthy : Option Int
  service_started : Option Int
  total_cycles : Nat
  circuit_breaker_state : CircuitBreakerState
  circuit_breaker_open_skips : Nat
deriving DecidableEq

/-- `#[derive(Default)]` for `AnchorStats`. -/
def AnchorStats.default : AnchorStats :=
  { total_anchored := 0
    total_failed := 0
    total_events_anchored := 0
    last_anchor_time := none
    last_batch_id := none
    consecutive_failures := 0
    l2_connection_failures := 0
    sequencer_api_failures := 0
    gas_price_skips := 0
    avg_anchor_time_ms := 0
    last_l2_healthy := none
    last_sequencer_healthy := none
    service_started := none
    total_cycles := 0
    circuit_breaker_state := .closed
    circuit_breaker_open_skips := 0 }

/-- `AnchorStats::record_success`: increment `total_anchored`, reset the
consecutive-failure count, stamp `last_anchor_time`, and fold the latency
into the running average (first sample taken as-is, later samples with the
`(avg·9 + sample)/10` EMA; the source tests `total_anchored == 1` *after*
the increment, i.e. `s.total_anchored + 1 = 1` on the old value). -/
def AnchorStats.record_success (s : AnchorStats) (now : Int)
    (anchor_time_ms : Nat) : AnchorStats :=
  let avg :=
    if s.total_anchored + 1 = 1 then anchor_time_ms
    else (s.avg_anchor_time_ms * 9 + anchor_time_ms) / 10
  { s with
      total_anchored := s.total_anchored + 1
      consecutive_failures := 0
      last_anchor_time := some now
      avg_anchor_time_ms := avg }

/-- `AnchorStats::record_failure`.  Note: only the `L2Connection` and
`SequencerApi` arms touch a per-category counter; the `Transaction` and
`Other` arms are empty in the source. -/
def AnchorStats.record_failure (s : AnchorStats) (error_type : ErrorType) :
    AnchorStats :=
  let s := { s with
      total_failed := s.total_failed + 1
      consecutive_failures := s.consecutive_failures + 1 }
  match error_type with
  | .l2Connection => { s with l2_connection_failures := s.l2_connection_failures + 1 }
  | .sequencerApi => { s with sequencer_api_failures := s.sequencer_api_failures + 1 }
  | .transaction => s
  | .other => s

/-- `AnchorStats::record_gas_skip`. -/
def AnchorStats.record_gas_skip (s : AnchorStats) : AnchorStats :=
  { s with gas_price_skips := s.gas_price_skips + 1 }

/-- `AnchorStats::mark_l2_healthy`. -/
def AnchorStats.mark_l2_healthy (s : AnchorStats) (now : Int) : AnchorStats :=
  { s with last_l2_healthy := some now }

/-- `AnchorStats::mark_sequencer_healthy`. -/
def AnchorStats.mark_sequencer_healthy (s : AnchorStats) (now : Int) : AnchorStats :=
  { s with last_sequencer_healthy := some now }

/-- `config.rs`: `AnchorConfig` (fields the modelled control loop reads;
URL / key strings kept for completeness). -/
structure AnchorConfig where
  l2_rpc_url : String
  set_registry_address : String
  sequencer_private_key : String
  sequencer_api_url : String
  anchor_interval_secs : Nat
  min_events_for_anchor : Nat
  max_retries : Nat
  retry_delay_secs : Nat
  max_gas_price_gwei : Nat
  health_port : Nat
  expected_l2_chain_id : Nat
  max_commitments_per_cycle : Nat
  sequencer_request_timeout_secs : Nat
  sequencer_connect_timeout_secs : Nat
  circuit_breaker_failure_threshold : Nat
  circuit_breaker_reset_timeout_secs : Nat
  circuit_breaker_half_open_success_threshold : Nat

/-- `error.rs`: the `L2Error` leaves reachable from the modelled control
loop. -/
inductive L2Error
  | rpcError (msg : String)
  | chainIdMismatch (expected actual : Nat)
  | gasPriceError (msg : String)
deriving DecidableEq

/-- `error.rs`: the `SequencerApiError` leaves reachable from the modelled
control loop. -/
inductive SequencerApiError
  | connectionFailed (url msg : String)
  | notificationFailed (msg : String)
deriving DecidableEq

/-- `error.rs`: the `TransactionError` leaves reachable from the modelled
control loop. -/
inductive TransactionError
  | submissionFailed (msg : String)
deriving DecidableEq

/-- `error.rs`: the `AuthorizationError` leaves reachable from the modelled
control loop. -/
inductive AuthorizationError
  | notAuthorized (address : String)
  | checkFailed (msg : String)
deriving DecidableEq

/-- `error.rs`: `AnchorError` (top-level categories). -/
inductive AnchorError
  | config (field message : String)
  | l2Connection (e : L2Error)
  | sequencerApi (e : SequencerApiError)
  | transaction (e : TransactionError)
  | authorization (e : AuthorizationError)
  | internal (msg : String)
deriving DecidableEq

/-- `AnchorError::error_code`. -/
def AnchorError.error_code : AnchorError → String
  | .config _ _ => "CONFIG_ERROR"
  | .l2Connection _ => "L2_CONNECTION_ERROR"
  | .sequencerApi _ => "SEQUENCER_API_ERROR"
  | .transaction _ => "TRANSACTION_ERROR"
  | .authorization _ => "AUTHORIZATION_ERROR"
  | .internal _ => "INTERNAL_ERROR"

/-- `health.rs`: `ErrorCounts`.  The source keeps `last_error_message` /
`last_error_code` as formatted strings derived from the error value; we
keep the error value itself (and its code via `AnchorError.error_code`). -/
structure ErrorCounts where
  config_errors : Nat
  l2_connection_errors : Nat
  sequencer_api_errors : Nat
  transaction_errors : Nat
  authorization_errors : Nat
  internal_errors : Nat
  last_error_time : Option Int
  last_error : Option AnchorError
deriving DecidableEq

/-- `ErrorCounts::default`. -/
def ErrorCounts.default : ErrorCounts :=
  { config_errors := 0
    l2_connection_errors := 0
    sequencer_api_errors := 0
    transaction_errors := 0
    authorization_errors := 0
    internal_errors := 0
    last_error_time := none
    last_error := none }

/-- An entry of the recent-error ring: the source's `ErrorRecord` carries
an ISO-8601 timestamp plus code / message / severity / retryability all
derived from the recorded `AnchorError`; we keep the timestamp and the
error value. -/
structure ErrorRecord where
  timestamp : Int
  error : AnchorError
deriving DecidableEq

/-- `HealthState::MAX_RECENT_ERRORS`. -/
def MAX_RECENT_ERRORS : Nat := 100

/-- The circular-buffer push in `HealthState::record_error`: evict the
oldest entry once the ring is full, then append. -/
def ringPush (r : List ErrorRecord) (x : ErrorRecord) : List ErrorRecord :=
  (if r.length ≥ MAX_RECENT_ERRORS then r.drop 1 else r) ++ [x]

/-- `health.rs`: the mutable fields owned by one `HealthState` instance.
The `stats : Arc<RwLock<AnchorStats>>` handle is *not* part of this record:
sharing of the stats record between instances is modelled explicitly in
`World` below. -/
structure HealthStateFields where
  last_l2_check : Option Int
  last_sequencer_check : Option Int
  is_ready : Bool
  error_counts : ErrorCounts
  recent_errors : List ErrorRecord
deriving DecidableEq

/-- `HealthState::new` (the non-shared fields). -/
def HealthStateFields.init : HealthStateFields :=
  { last_l2_check := none
    last_sequencer_check := none
    is_ready := false
    error_counts := ErrorCounts.default
    recent_errors := [] }

/-- `HealthState::set_ready`. -/
def HealthStateFields.set_ready (h : HealthStateFields) (ready : Bool) :
    HealthStateFields :=
  { h with is_ready := ready }

/-- `HealthState::mark_l2_healthy`. -/
def HealthStateFields.mark_l2_healthy (h : HealthStateFields) (now : Int) :
    HealthStateFields :=
  { h with last_l2_check := some now }

/-- `HealthState::mark_sequencer_healthy`. -/
def HealthStateFields.mark_sequencer_healthy (h : HealthStateFields) (now : Int) :
    HealthStateFields :=
  { h with last_sequencer_check := some now }

/-- The per-category bump in `HealthState::record_error`. -/
def ErrorCounts.bump (c : ErrorCounts) (e : AnchorError) : ErrorCounts :=
  match e with
  | .config _ _ => { c with config_errors := c.config_errors + 1 }
  | .l2Connection _ => { c with l2_connection_errors := c.l2_connection_errors + 1 }
  | .sequencerApi _ => { c with sequencer_api_errors := c.sequencer_api_errors + 1 }
  | .transaction _ => { c with transaction_errors := c.transaction_errors + 1 }
  | .authorization _ => { c with authorization_errors := c.authorization_errors + 1 }
  | .internal _ => { c with internal_errors := c.internal_errors + 1 }

/-- `HealthState::record_error`. -/
def HealthStateFields.record_error (h : HealthStateFields) (now : Int)
    (e : AnchorError) : HealthStateFields :=
  let counts := { h.error_counts.bump e with
      last_error_time := some now
      last_error := some e }
  { h with
      error_counts := counts
      recent_errors := ringPush h.recent_errors { timestamp := now, error := e } }

/-- `types.rs`: `BatchCommitment` (roots as hex-character lists, ids as
`Uuid`, timestamp as seconds). -/
structure BatchCommitment where
  batch_id : Uuid
  tenant_id : Uuid
  store_id : Uuid
  prev_state_root : List Char
  new_state_root : List Char
  events_root : List Char
  sequence_start : Nat
  sequence_end : Nat
  event_count : Nat
  committed_at : Int
  chain_tx_hash : Option (List Char)

/-- `types.rs`: `AnchorNotification`. -/
structure AnchorNotification where
  chain_tx_hash : List Char
  chain_id : Nat
  block_number : Option Nat
  gas_used : Option Nat
deriving DecidableEq

/-- `types.rs`: `AnchorResult`. -/
structure AnchorResult where
  batch_id : Uuid
  tx_hash : List Char
  block_number : Nat
  gas_used : Nat
  success : Bool
  error : Option String

/-- Value of one hex digit, `none` for a non-hex character (the failure
case of `hex::decode`). -/
def hexDigit (c : Char) : Option Nat :=
  if '0' ≤ c ∧ c ≤ '9' then some (c.toNat - '0'.toNat)
  else if 'a' ≤ c ∧ c ≤ 'f' then some (c.toNat - 'a'.toNat + 10)
  else if 'A' ≤ c ∧ c ≤ 'F' then some (c.toNat - 'A'.toNat + 10)
  else none

/-- `hex::decode`: pairs of hex digits to bytes; fails on odd length or a
non-hex character. -/
def hexDecode : List Char → Option (List Nat)
  | [] => some []
  | [_] => none
  | c1 :: c2 :: rest =>
      match hexDigit c1, hexDigit c2, hexDecode rest with
      | some hi, some lo, some bs => some ((hi * 16 + lo) :: bs)
      | _, _, _ => none

/-- One byte to two lowercase hex digits (`hex::encode`). -/
def hexByte (b : Nat) : List Char :=
  let digit := fun n => if n < 10 then Char.ofNat ('0'.toNat + n)
    else Char.ofNat ('a'.toNat + (n - 10))
  [digit (b / 16 % 16), digit (b % 16)]

/-- `hex::encode` over a byte list. -/
def hexEncode (bs : List Nat) : List Char :=
  bs.flatMap hexByte

/-- `client.rs`: `strip_prefix("0x")` (keep the string if the prefix is
absent). -/
def strip0x : List Char → List Char
  | '0' :: 'x' :: rest => rest
  | l => l

/-- The all-zero 32-byte value (`FixedBytes::ZERO`). -/
def zeroBytes32 : List Nat := List.replicate 32 0

/-- `client.rs`: `parse_bytes32`.  Strip an optional `0x`; the empty
string and any all-`'0'` string give the zero value; otherwise hex-decode
and demand exactly 32 bytes. -/
def parse_bytes32 (hex_str : List Char) : Except String (List Nat) :=
  let hex_str := strip0x hex_str
  if hex_str.isEmpty ∨ hex_str.all (fun c => c = '0') then
    .ok zeroBytes32
  else
    match hexDecode hex_str with
    | none => .error "hex decode failed"
    | some bytes =>
        if bytes.length ≠ 32 then
          .error "Invalid bytes32 length: expected 32"
        else
          .ok bytes

/-- `client.rs`: `uuid_to_bytes32` — `[0u8; 32]` with the 16 uuid bytes
copied into the first 16 positions. -/
def uuid_to_bytes32 (uuid : Uuid) : List Nat :=
  uuid.val ++ List.replicate 16 0

/-- External calls the control loop can make during one cycle; claims
about which network operations happen are stated over traces of these. -/
inductive Action
  | gasRead
  | fetchPending
  | commitCall (batch_id : Uuid) (attempt : Nat)
  | notifyCall (batch_id : Uuid) (note : AnchorNotification)
  | sleep (secs : Nat)
deriving DecidableEq

/-- Oracles for the effects of one cycle: current time, outcome of the
gas-price read, of the pending-list fetch, of each `commitBatch`
transaction send (per batch and attempt number), the elapsed milliseconds
measured around a successful attempt, and the outcome of
`notifyAnchored`.  `chain_id` is the value captured by the registry client
at start-up. -/
structure CycleEnv where
  now : Int
  chain_id : Nat
  gas_price : Except String Nat
  pending : Except String (List BatchCommitment)
  submit : BatchCommitment → Nat → Except String (List Nat × Nat × Nat)
  elapsed_ms : BatchCommitment → Nat → Nat
  notify : BatchCommitment → Except String Unit

/-- `client.rs`: `RegistryClient::commit_batch` — convert uuids, parse the
three roots (any parse failure fails the call), then submit and await the
receipt (the `env.submit` oracle, yielding tx-hash bytes, block number
with `unwrap_or(0)` applied, and gas used). -/
def RegistryClient.commit_batch (env : CycleEnv) (commitment : BatchCommitment)
    (attempt : Nat) : Except String (List Nat × Nat × Nat) :=
  let _batch_id := uuid_to_bytes32 commitment.batch_id
  let _tenant_id := uuid_to_bytes32 commitment.tenant_id
  let _store_id := uuid_to_bytes32 commitment.store_id
  match parse_bytes32 commitment.events_root with
  | .error e => .error e
  | .ok _ =>
  match parse_bytes32 commitment.prev_state_root with
  | .error e => .error e
  | .ok _ =>
  match parse_bytes32 commitment.new_state_root with
  | .error e => .error e
  | .ok _ => env.submit commitment attempt

/-- `service.rs`: the state the `AnchorService` mutates: the shared stats
record, the circuit breaker, and the service's `HealthState` instance
(`main` always wires one via `with_health_state`). -/
structure SvcState where
  stats : AnchorStats
  breaker : CircuitBreaker
  health : HealthStateFields

/-- `AnchorService::record_error` (forwards to the health state). -/
def SvcState.record_error (st : SvcState) (now : Int) (e : AnchorError) :
    SvcState :=
  { st with health := st.health.record_error now e }

/-- `AnchorService::record_success` (`service.rs` lines 92–104): breaker
success first, then the stats update, events-anchored and last-batch-id,
and the breaker-state snapshot. -/
def SvcState.record_success (st : SvcState) (now : Int)
    (commitment : BatchCommitment) (anchor_time_ms : Nat) : SvcState :=
  let breaker := st.breaker.record_success
  let stats := st.stats.record_success now anchor_time_ms
  let stats := { stats with
      total_events_anchored := stats.total_events_anchored + commitment.event_count
      last_batch_id := some commitment.batch_id
      circuit_breaker_state := breaker.state }
  { st with stats := stats, breaker := breaker }

/-- `AnchorService::record_failure` (`service.rs` lines 106–121): stats
failure first, then the breaker is handed the new consecutive-failure
count, then the breaker-state snapshot is written back. -/
def SvcState.record_failure (st : SvcState) (now : Int) (error_type : ErrorType) :
    SvcState :=
  let stats := st.stats.record_failure error_type
  let breaker := st.breaker.record_failure now stats.consecutive_failures
  { st with
      stats := { stats with circuit_breaker_state := breaker.state }
      breaker := breaker }

/-- The service-side `mark_l2_healthy` (health instance + stats, as in
`run`'s success branch and start-up). -/
def SvcState.mark_l2_healthy (st : SvcState) (now : Int) : SvcState :=
  { st with
      health := st.health.mark_l2_healthy now
      stats := st.stats.mark_l2_healthy now }

/-- The service-side `mark_sequencer_healthy` (health instance + stats, as
in `anchor_pending`'s fetch-success branch). -/
def SvcState.mark_sequencer_healthy (st : SvcState) (now : Int) : SvcState :=
  { st with
      health := st.health.mark_sequencer_healthy now
      stats := st.stats.mark_sequencer_healthy now }

/-- `AnchorService::anchor_commitment`: submit to chain; on success build
the notification and try `notify_anchored` exactly once — a notify failure
increments `sequencer_api_failures` directly and records the error, but
the function still returns the successful result. -/
def anchor_commitment (env : CycleEnv) (commitment : BatchCommitment)
    (attempt : Nat) (st : SvcState) :
    Except String AnchorResult × SvcState × List Action :=
  match RegistryClient.commit_batch env commitment attempt with
  | .error e => (.error e, st, [.commitCall commitment.batch_id attempt])
  | .ok (tx_hash, block_number, gas_used) =>
      let tx_hash_hex := '0' :: 'x' :: hexEncode tx_hash
      let notification : AnchorNotification :=
        { chain_tx_hash := tx_hash_hex
          chain_id := env.chain_id
          block_number := some block_number
          gas_used := some gas_used }
      let st :=
        match env.notify commitment with
        | .ok _ => st
        | .error e =>
            let st := { st with stats := { st.stats with
                sequencer_api_failures := st.stats.sequencer_api_failures + 1 } }
            st.record_error env.now
              (.sequencerApi (.notificationFailed e))
      (.ok { batch_id := commitment.batch_id
             tx_hash := tx_hash_hex
             block_number := block_number
             gas_used := gas_used
             success := true
             error := none },
       st,
       [.commitCall commitment.batch_id attempt,
        .notifyCall commitment.batch_id notification])

/-- The body of `AnchorService::anchor_with_retry`, over the list of
remaining attempt numbers (`for attempt in 1..=max_retries`).  When the
list is exhausted all attempts failed: record a `Transaction` failure,
record the last error, and return the failed result with an empty tx
hash.  A failed attempt with `attempt < max_retries` sleeps
`retry_delay_secs * attempt` before the next one. -/
def retryGo (env : CycleEnv) (cfg : AnchorConfig) (commitment : BatchCommitment) :
    List Nat → SvcState → Option String → AnchorResult × SvcState × List Action
  | [], st, last_error =>
      let st := st.record_failure env.now .transaction
      let error_message := last_error.getD "unknown error"
      let st := st.record_error env.now
        (.transaction (.submissionFailed error_message))
      ({ batch_id := commitment.batch_id
         tx_hash := []
         block_number := 0
         gas_used := 0
         success := false
         error := some error_message },
       st, [])
  | attempt :: rest, st, _last_error =>
      match anchor_commitment env commitment attempt st with
      | (.ok result, st1, acts) =>
          let st2 := st1.record_success env.now commitment
            (env.elapsed_ms commitment attempt)
          (result, st2, acts)
      | (.error e, st1, acts) =>
          let back_off : List Action :=
            if attempt < cfg.max_retries then
              [.sleep (cfg.retry_delay_secs * attempt)]
            else []
          let (result, st2, acts2) := retryGo env cfg commitment rest st1 (some e)
          (result, st2, acts ++ back_off ++ acts2)

/-- `AnchorService::anchor_with_retry`. -/
def anchor_with_retry (env : CycleEnv) (cfg : AnchorConfig)
    (commitment : BatchCommitment) (st : SvcState) :
    AnchorResult × SvcState × List Action :=
  retryGo env cfg commitment (List.range' 1 cfg.max_retries) st none

/-- The per-batch loop of `AnchorService::anchor_pending`: skip batches
below `min_events_for_anchor` silently, anchor the rest in order. -/
def anchorLoop (env : CycleEnv) (cfg : AnchorConfig) :
    List BatchCommitment → SvcState → List AnchorResult × SvcState × List Action
  | [], st => ([], st, [])
  | commitment :: rest, st =>
      if commitment.event_count < cfg.min_events_for_anchor then
        anchorLoop env cfg rest st
      else
        let (result, st1, acts) := anchor_with_retry env cfg commitment st
        let (results, st2, acts2) := anchorLoop env cfg rest st1
        (result :: results, st2, acts ++ acts2)

/-- The fetch-and-anchor tail of `AnchorService::anchor_pending`: fetch
the pending list (failure: sequencer-API failure + recorded error, cycle
yields no results), mark the sequencer healthy on success, idle on an
empty list, truncate to `max_commitments_per_cycle` when positive, then
run the batch loop. -/
def fetch_and_anchor (env : CycleEnv) (cfg : AnchorConfig) (st : SvcState) :
    List AnchorResult × SvcState × List Action :=
  match env.pending with
  | .error e =>
      let st := st.record_failure env.now .sequencerApi
      let st := st.record_error env.now
        (.sequencerApi (.connectionFailed cfg.sequencer_api_url e))
      ([], st, [.fetchPending])
  | .ok commitments =>
      let st := st.mark_sequencer_healthy env.now
      if commitments.isEmpty then
        ([], st, [.fetchPending])
      else
        let commitments :=
          if cfg.max_commitments_per_cycle > 0 ∧
              commitments.length > cfg.max_commitments_per_cycle then
            commitments.take cfg.max_commitments_per_cycle
          else commitments
        let (results, st1, acts) := anchorLoop env cfg commitments st
        (results, st1, .fetchPending :: acts)

/-- `AnchorService::anchor_pending`: the gas gate (only when
`max_gas_price_gwei > 0`): a gas-price read error records an
`L2Connection` failure and ends the cycle; a price above
`max_gas_price_gwei · 10⁹` records a gas skip and ends the cycle; else
proceed to fetch-and-anchor.  The source returns `Ok` on every path. -/
def anchor_pending (env : CycleEnv) (cfg : AnchorConfig) (st : SvcState) :
    List AnchorResult × SvcState × List Action :=
  if cfg.max_gas_price_gwei > 0 then
    match env.gas_price with
    | .error e =>
        let st := st.record_error env.now (.l2Connection (.gasPriceError e))
        let st := st.record_failure env.now .l2Connection
        ([], st, [.gasRead])
    | .ok gas_price =>
        let max_gas_price := cfg.max_gas_price_gwei * 1000000000
        if gas_price > max_gas_price then
          let st := { st with stats := st.stats.record_gas_skip }
          ([], st, [.gasRead])
        else
          let (results, st1, acts) := fetch_and_anchor env cfg st
          (results, st1, .gasRead :: acts)
  else
    fetch_and_anchor env cfg st

/-- The denied branch of one main-loop cycle: snapshot the breaker state,
count the skip, sleep one interval. -/
def run_cycle_denied (cfg : AnchorConfig) (st : SvcState)
    (breaker_state : CircuitBreakerState) : SvcState × List Action :=
  let st := { st with stats := { st.stats with
      circuit_breaker_state := breaker_state
      circuit_breaker_open_skips := st.stats.circuit_breaker_open_skips + 1 } }
  (st, [.sleep cfg.anchor_interval_secs])

/-- The allowed branch of one main-loop cycle: snapshot the breaker state
(`update_circuit_breaker_state`), run `anchor_pending`, and — since
`anchor_pending` returns `Ok` on every path — mark L2 healthy, then sleep
one interval. -/
def run_cycle_allowed (env : CycleEnv) (cfg : AnchorConfig) (st : SvcState)
    (breaker_state : CircuitBreakerState) : SvcState × List Action :=
  let st := { st with stats := { st.stats with
      circuit_breaker_state := breaker_state } }
  let (_results, st1, acts) := anchor_pending env cfg st
  let st2 := st1.mark_l2_healthy env.now
  (st2, acts ++ [.sleep cfg.anchor_interval_secs])

/-- One iteration of the main loop in `AnchorService::run`: increment
`total_cycles`, consult `allow_request`, then take the denied or allowed
branch. -/
def run_cycle (env : CycleEnv) (cfg : AnchorConfig) (st : SvcState) :
    SvcState × List Action :=
  let st := { st with stats := { st.stats with
      total_cycles := st.stats.total_cycles + 1 } }
  let (allow, breaker) := st.breaker.allow_request env.now
  let st := { st with breaker := breaker }
  if allow then
    run_cycle_allowed env cfg st breaker.state
  else
    run_cycle_denied cfg st breaker.state

/-- `HealthState::get_recent_errors` (the tail of at most `limit`
entries). -/
def HealthStateFields.get_recent_errors (h : HealthStateFields) (limit : Nat) :
    List ErrorRecord :=
  h.recent_errors.drop (h.recent_errors.length - limit)

/-- The program state assembled by `main.rs`: one shared `AnchorStats`
record (held inside `svc.stats`), the anchor service with its own
`HealthState` instance (`svc.health`, wired by
`AnchorService::with_health_state`), and the health server's *second*
`HealthState` instance created by `HealthServer::new(config, stats, port)`
— which shares only the stats `Arc` with the service.  The served
endpoints read `svc.stats` (shared) and `server_health` (private to the
server). -/
structure World where
  svc : SvcState
  server_health : HealthStateFields

/-- `main.rs` construction: default stats, a breaker from the configured
thresholds (`AnchorService::with_health_state`), and two fresh
`HealthState` field records. -/
def World.init (cfg : AnchorConfig) : World :=
  { svc :=
      { stats := AnchorStats.default
        breaker :=
          { CircuitBreaker.new cfg.circuit_breaker_failure_threshold
              cfg.circuit_breaker_reset_timeout_secs with
              half_open_success_threshold :=
                cfg.circuit_breaker_half_open_success_threshold }
        health := HealthStateFields.init }
    server_health := HealthStateFields.init }

/-- Everything `AnchorService::run` ever does to shared state, as atomic
steps: seeding `service_started`, recording errors and failures (start-up
failure paths), `set_ready` / `mark_l2_healthy` on its own health instance
(start-up success path), and whole main-loop cycles. -/
inductive LoopStep
  | seedStart (now : Int)
  | recordError (now : Int) (e : AnchorError)
  | recordFailure (now : Int) (error_type : ErrorType)
  | setReady (ready : Bool)
  | markL2 (now : Int)
  | cycle (env : CycleEnv)

/-- Apply one control-loop step to the world.  Every step goes through the
`AnchorService`, which holds the shared stats, the breaker, and *its own*
health instance — never the server's. -/
def World.step (cfg : AnchorConfig) (w : World) : LoopStep → World
  | .seedStart now =>
      { w with svc := { w.svc with stats := { w.svc.stats with
          service_started :=
            match w.svc.stats.service_started with
            | none => some now
            | some t => some t } } }
  | .recordError now e => { w with svc := w.svc.record_error now e }
  | .recordFailure now error_type =>
      { w with svc := w.svc.record_failure now error_type }
  | .setReady ready =>
      { w with svc := { w.svc with health := w.svc.health.set_ready ready } }
  | .markL2 now => { w with svc := w.svc.mark_l2_healthy now }
  | .cycle env => { w with svc := (run_cycle env cfg w.svc).1 }

/-- The control loop as a sequence of steps applied to the world. -/
def World.run (cfg : AnchorConfig) (w : World) (steps : List LoopStep) : World :=
  steps.foldl (World.step cfg) w

/-- The 60-second freshness test of `ready_handler`
(`t.elapsed().as_secs() < 60`, `false` when never checked). -/
def freshWithin60 (now : Int) : Option Int → Bool
  | some t => decide (now - t < 60)
  | none => false

/-- `health.rs` `ready_handler`: the served `ready` boolean, computed from
the *server's* health instance. -/
def served_ready (w : World) (now : Int) : Bool :=
  w.server_health.is_ready &&
    freshWithin60 now w.server_health.last_l2_check &&
    freshWithin60 now w.server_health.last_sequencer_check

/-- `ready_handler`'s HTTP status: 200 when ready, 503 otherwise. -/
def served_ready_status (w : World) (now : Int) : Nat :=
  if served_ready w now then 200 else 503

/-- Predicate picking out `notifyAnchored` calls for a given batch. -/
def Action.isNotifyFor (batch_id : Uuid) : Action → Bool
  | .notifyCall b _ => b = batch_id
  | _ => false

/-! Concrete fixtures used by witnesses and counterexamples. -/

/-- A concrete 128-bit identifier. -/
def sampleUuid : Uuid := ⟨List.replicate 16 0, by simp⟩

/-- A second, distinct identifier. -/
def sampleUuid2 : Uuid := ⟨7 :: List.replicate 15 0, by simp⟩

/-- A concrete batch whose roots are empty strings (which parse to the
zero root). -/
def sampleBatch : BatchCommitment :=
  { batch_id := sampleUuid
    tenant_id := sampleUuid
    store_id := sampleUuid
    prev_state_root := []
    new_state_root := []
    events_root := []
    sequence_start := 1
    sequence_end := 10
    event_count := 10
    committed_at := 0
    chain_tx_hash := none }

/-- A concrete configuration (defaults, with a threshold of 1 event). -/
def sampleCfg : AnchorConfig :=
  { l2_rpc_url := "http://localhost:8547"
    set_registry_address := "0x1234567890123456789012345678901234567890"
    sequencer_private_key := "0xac09"
    sequencer_api_url := "http://localhost:3000"
    anchor_interval_secs := 60
    min_events_for_anchor := 1
    max_retries := 3
    retry_delay_secs := 5
    max_gas_price_gwei := 0
    health_port := 9090
    expected_l2_chain_id := 0
    max_commitments_per_cycle := 0
    sequencer_request_timeout_secs := 10
    sequencer_connect_timeout_secs := 3
    circuit_breaker_failure_threshold := 5
    circuit_breaker_reset_timeout_secs := 60
    circuit_breaker_half_open_success_threshold := 3 }

/-- A concrete environment with all oracles succeeding. -/
def sampleEnv : CycleEnv :=
  { now := 5
    chain_id := 84532001
    gas_price := .ok 1
    pending := .ok []
    submit := fun _ _ => .ok (List.replicate 32 1, 100, 50000)
    elapsed_ms := fun _ _ => 7
    notify := fun _ => .ok () }

/-- A concrete initial service state. -/
def sampleSvc : SvcState :=
  { stats := AnchorStats.default
    breaker := CircuitBreaker.default
    health := HealthStateFields.init }

/-- A concrete open breaker whose last failure was at time 0. -/
def sampleOpenBreaker : CircuitBreaker :=
  { CircuitBreaker.default with state := .opened, last_failure_time := some 0 }

end SetAnchor

namespace SetAnchor

/-! ## Helper lemmas -/

/-- Hex-decoding an all-`'0'` string yields all zero bytes. -/
theorem hexDecode_allZero : ∀ (l : List Char) (bs : List Nat),
    (∀ c ∈ l, c = '0') → hexDecode l = some bs →
    bs = List.replicate (l.length / 2) 0
  | [], bs, _, hd => by
      simp [hexDecode] at hd
      simp [← hd]
  | [c], bs, _, hd => by
      simp [hexDecode] at hd
  | c1 :: c2 :: rest, bs, hz, hd => by
      have h1 : c1 = '0' := hz c1 (by simp)
      have h2 : c2 = '0' := hz c2 (by simp)
      subst h1; subst h2
      have hdig : hexDigit '0' = some 0 := by decide
      rw [hexDecode, hdig] at hd
      cases hrest : hexDecode rest with
      | none => rw [hrest] at hd; simp at hd
      | some bs' =>
          rw [hrest] at hd
          simp at hd
          have ih := hexDecode_allZero rest bs'
            (fun c hc => hz c (by simp [hc])) hrest
          have hlen : (rest.length + 2) / 2 = rest.length / 2 + 1 := by omega
          simp [← hd, ih, List.length_cons, hlen, List.replicate_succ]

/-! ## Claim theorems -/

/-- C10: the 32-byte encoding of a 128-bit identifier places the 16
identifier bytes in the first (high) 16 bytes, leaves the low 16 bytes
zero, and taking the first 16 bytes of the encoding recovers the
identifier. -/
theorem uuid_bytes32_roundtrip (u : Uuid) :
    (uuid_to_bytes32 u).take 16 = u.val ∧
    (uuid_to_bytes32 u).drop 16 = List.replicate 16 0 ∧
    (uuid_to_bytes32 u).length = 32 := by
  have hlen := u.property
  refine ⟨?_, ?_, ?_⟩
  · have h := List.take_left u.val (List.replicate 16 0)
    rw [hlen] at h
    exact h
  · have h := List.drop_left u.val (List.replicate 16 0)
    rw [hlen] at h
    exact h
  · simp [uuid_to_bytes32, hlen]

/-- C9: after stripping an optional `0x`, the empty string and any
all-`'0'` string parse to the zero 32-byte root; any other decodable
string of decoded length ≠ 32 is rejected; and any string that decodes to
exactly 32 bytes parses to those bytes. -/
theorem parse_bytes32_spec :
    (∀ s : List Char, (∀ c ∈ strip0x s, c = '0') →
      parse_bytes32 s = .ok zeroBytes32) ∧
    (∀ (s : List Char) (bs : List Nat),
      ¬ ((strip0x s).isEmpty ∨ ∀ c ∈ strip0x s, c = '0') →
      hexDecode (strip0x s) = some bs → bs.length ≠ 32 →
      parse_bytes32 s = .error "Invalid bytes32 length: expected 32") ∧
    (∀ (s : List Char) (bs : List Nat),
      hexDecode (strip0x s) = some bs → bs.length = 32 →
      parse_bytes32 s = .ok bs) := by
  refine ⟨?_, ?_, ?_⟩
  · intro s hz
    rw [parse_bytes32]
    rw [if_pos]
    right
    simpa using hz
  · intro s bs hne hd hlen
    rw [parse_bytes32]
    rw [if_neg (by simpa using hne)]
    rw [hd]
    simp [hlen]
  · intro s bs hd hlen
    rw [parse_bytes32]
    by_cases hz : (strip0x s).isEmpty = true ∨ ∀ c ∈ strip0x s, c = '0'
    · rw [if_pos (by simpa using hz)]
      have hall : ∀ c ∈ strip0x s, c = '0' := by
        rcases hz with hz | hz
        · intro c hc
          rw [List.isEmpty_iff] at hz
          rw [hz] at hc
          simp at hc
        · exact hz
      have hbs := hexDecode_allZero (strip0x s) bs hall hd
      have : (strip0x s).length / 2 = 32 := by rw [hbs] at hlen; simpa using hlen
      rw [hbs, this, zeroBytes32]
    · rw [if_neg (by simpa using hz)]
      rw [hd]
      simp [hlen]

/-- C9 witness: concrete instances — `"0x00"` parses to the zero root, a
two-character hex string is rejected for its length, and a 64-character
hex string parses to its 32 decoded bytes. -/
theorem parse_bytes32_spec_witness :
    parse_bytes32 ['0', 'x', '0', '0'] = .ok zeroBytes32 ∧
    parse_bytes32 ['a', 'b'] = .error "Invalid bytes32 length: expected 32" ∧
    parse_bytes32 (List.replicate 63 '0' ++ ['1']) =
      .ok (List.replicate 31 0 ++ [1]) := by
  refine ⟨?_, ?_, ?_⟩
  · exact parse_bytes32_spec.1 ['0', 'x', '0', '0'] (by decide)
  · exact parse_bytes32_spec.2.1 ['a', 'b'] [171] (by decide) (by decide) (by decide)
  · exact parse_bytes32_spec.2.2 (List.replicate 63 '0' ++ ['1'])
      (List.replicate 31 0 ++ [1]) (by decide) (by decide)

/-- C3: with the breaker open and a recorded last failure at `t`, any
`allow_request` strictly earlier than `reset_timeout_secs` after `t`
returns `false` and leaves the breaker unchanged (still open); the first
call at or after the timeout moves the breaker to half-open, zeroes the
half-open success count, and returns `true`. -/
theorem circuit_breaker_open_gate (cb : CircuitBreaker) (now t : Int)
    (h1 : cb.state = .opened) (h2 : cb.last_failure_time = some t) :
    (now - t < (cb.reset_timeout_secs : Int) →
      cb.allow_request now = (false, cb)) ∧
    ((cb.reset_timeout_secs : Int) ≤ now - t →
      cb.allow_request now =
        (true, { cb with state := .halfOpen, half_open_success_count := 0 })) := by
  constructor
  · intro hlt
    simp only [CircuitBreaker.allow_request, h1, h2]
    rw [if_neg (by omega)]
  · intro hge
    simp only [CircuitBreaker.allow_request, h1, h2]
    rw [if_pos (by omega)]

/-- C3 witness: with a 60-second timeout and a failure at time 0,
`allow_request` at time 30 is denied and at time 60 transitions to
half-open. -/
theorem circuit_breaker_open_gate_witness :
    sampleOpenBreaker.allow_request 30 = (false, sampleOpenBreaker) ∧
    sampleOpenBreaker.allow_request 60 =
      (true, { sampleOpenBreaker with
                state := .halfOpen, half_open_success_count := 0 }) := by
  constructor
  · exact (circuit_breaker_open_gate sampleOpenBreaker 30 0 (by decide)
      (by decide)).1 (by decide)
  · exact (circuit_breaker_open_gate sampleOpenBreaker 60 0 (by decide)
      (by decide)).2 (by decide)

/-- C5 counterexample: `record_failure` with the `Transaction` category
changes nothing but `total_failed` and `consecutive_failures` — the stats
record has no transaction (nor other) per-category counter, and the two
per-category counters that do exist stay at zero.  The same holds for the
`Other` category. -/
theorem record_failure_no_transaction_counter :
    AnchorStats.default.record_failure .transaction =
      { AnchorStats.default with total_failed := 1, consecutive_failures := 1 } ∧
    (AnchorStats.default.record_failure .transaction).l2_connection_failures = 0 ∧
    (AnchorStats.default.record_failure .transaction).sequencer_api_failures = 0 ∧
    AnchorStats.default.record_failure .other =
      { AnchorStats.default with total_failed := 1, consecutive_failures := 1 } := by
  refine ⟨?_, ?_, ?_, ?_⟩ <;> decide

/-- C5 (amended): every `record_failure` increments `total_failed` and
`consecutive_failures`; the `L2Connection` and `SequencerApi` categories
additionally increment their per-category counters, while the
`Transaction` and `Other` categories increment no per-category counter
(none exists for them). -/
theorem record_failure_amended (s : AnchorStats) :
    (∀ error_type, (s.record_failure error_type).total_failed = s.total_failed + 1 ∧
      (s.record_failure error_type).consecutive_failures = s.consecutive_failures + 1) ∧
    (s.record_failure .l2Connection).l2_connection_failures =
      s.l2_connection_failures + 1 ∧
    (s.record_failure .sequencerApi).sequencer_api_failures =
      s.sequencer_api_failures + 1 ∧
    s.record_failure .transaction =
      { s with total_failed := s.total_failed + 1,
               consecutive_failures := s.consecutive_failures + 1 } ∧
    s.record_failure .other =
      { s with total_failed := s.total_failed + 1,
               consecutive_failures := s.consecutive_failures + 1 } := by
  refine ⟨fun error_type => ?_, ?_, ?_, ?_, ?_⟩ <;>
    first
      | (cases error_type <;> simp [AnchorStats.record_failure])
      | simp [AnchorStats.record_failure]

/-- C4: a cycle denied by the circuit breaker performs no external action
other than the interval sleep — no gas-price read, no sequencer fetch, no
chain submission — and increments both `circuit_breaker_open_skips` and
`total_cycles` by exactly one. -/
theorem breaker_denied_cycle (env : CycleEnv) (cfg : AnchorConfig) (st : SvcState)
    (h : (st.breaker.allow_request env.now).1 = false) :
    (run_cycle env cfg st).2 = [Action.sleep cfg.anchor_interval_secs] ∧
    (run_cycle env cfg st).1.stats.circuit_breaker_open_skips =
      st.stats.circuit_breaker_open_skips + 1 ∧
    (run_cycle env cfg st).1.stats.total_cycles = st.stats.total_cycles + 1 := by
  rcases hab : st.breaker.allow_request env.now with ⟨allow, b⟩
  rw [hab] at h
  simp only at h
  subst h
  simp [run_cycle, hab, run_cycle_denied]

/-- C4 witness: a breaker that is open with no recorded last failure
denies the request; the concrete denied cycle sleeps one interval and
bumps both counters. -/
theorem breaker_denied_cycle_witness :
    (run_cycle sampleEnv sampleCfg
        { sampleSvc with breaker :=
            { CircuitBreaker.default with state := .opened } }).2 =
      [Action.sleep 60] ∧
    (run_cycle sampleEnv sampleCfg
        { sampleSvc with breaker :=
            { CircuitBreaker.default with state := .opened } }).1.stats.circuit_breaker_open_skips = 1 ∧
    (run_cycle sampleEnv sampleCfg
        { sampleSvc with breaker :=
            { CircuitBreaker.default with state := .opened } }).1.stats.total_cycles = 1 := by
  have h := breaker_denied_cycle sampleEnv sampleCfg
    { sampleSvc with breaker := { CircuitBreaker.default with state := .opened } }
    (by decide)
  exact ⟨h.1, h.2.1, h.2.2⟩

/-- Helper: no control-loop step touches the health server's own
`HealthState` instance. -/
theorem step_preserves_server_health (cfg : AnchorConfig) (w : World)
    (s : LoopStep) : (World.step cfg w s).server_health = w.server_health := by
  cases s <;> rfl

/-- Helper: a whole control-loop run leaves the server's `HealthState`
instance untouched. -/
theorem run_preserves_server_health (cfg : AnchorConfig) (steps : List LoopStep) :
    ∀ w : World, (World.run cfg w steps).server_health = w.server_health := by
  induction steps with
  | nil => intro w; rfl
  | cons s rest ih =>
      intro w
      have h1 : World.run cfg w (s :: rest) =
          World.run cfg (World.step cfg w s) rest := rfl
      rw [h1, ih (World.step cfg w s), step_preserves_server_health]

/-- C2: in the program `main` assembles, the control loop and the health
server hold two distinct `HealthState` instances sharing only the stats
record, so after any sequence of control-loop steps the server's
`is_ready` flag, check timestamps, error counts and recent-error ring are
still in their initial state; the served `/ready` is therefore never
ready and answers 503 for the entire run. -/
theorem health_surface_isolated (cfg : AnchorConfig) (steps : List LoopStep)
    (now : Int) :
    (World.run cfg (World.init cfg) steps).server_health =
      HealthStateFields.init ∧
    served_ready (World.run cfg (World.init cfg) steps) now = false ∧
    served_ready_status (World.run cfg (World.init cfg) steps) now = 503 := by
  have h := run_preserves_server_health cfg steps (World.init cfg)
  have hinit : (World.init cfg).server_health = HealthStateFields.init := rfl
  have hsrv := h.trans hinit
  refine ⟨hsrv, ?_, ?_⟩
  · simp [served_ready, hsrv, HealthStateFields.init]
  · simp [served_ready_status, served_ready, hsrv, HealthStateFields.init]

/-- C7: a batch below the minimum event threshold is skipped silently —
processing a pending list containing it is identical (same results, same
state, same external actions) to processing the list without it, so
`commitBatch` is never invoked for it, its retry loop is never entered,
and no counter changes on its account. -/
theorem below_threshold_skipped (env : CycleEnv) (cfg : AnchorConfig)
    (pre rest : List BatchCommitment) (c : BatchCommitment) (st : SvcState)
    (h : c.event_count < cfg.min_events_for_anchor) :
    anchorLoop env cfg (pre ++ c :: rest) st = anchorLoop env cfg (pre ++ rest) st := by
  induction pre generalizing st with
  | nil =>
      show anchorLoop env cfg (c :: rest) st = anchorLoop env cfg rest st
      rw [anchorLoop, if_pos h]
  | cons d pre ih =>
      simp only [List.cons_append]
      rw [anchorLoop, anchorLoop]
      by_cases hd : d.event_count < cfg.min_events_for_anchor
      · rw [if_pos hd, if_pos hd, ih]
      · rw [if_neg hd, if_neg hd]
        rcases hr : anchor_with_retry env cfg d st with ⟨r, st1, acts⟩
        simp only [ih]

/-- C7 witness: a concrete batch with 0 events against a threshold of 1
is skipped. -/
theorem below_threshold_skipped_witness :
    anchorLoop sampleEnv sampleCfg [{ sampleBatch with event_count := 0 }]
      sampleSvc =
    anchorLoop sampleEnv sampleCfg [] sampleSvc :=
  below_threshold_skipped sampleEnv sampleCfg [] []
    { sampleBatch with event_count := 0 } sampleSvc (by decide)

/-- Helper: the allowed branch of a cycle always ends by marking L2
healthy, whatever `anchor_pending` did. -/
theorem run_cycle_allowed_marks_l2 (env : CycleEnv) (cfg : AnchorConfig)
    (st : SvcState) (bstate : CircuitBreakerState) :
    (run_cycle_allowed env cfg st bstate).1.stats.last_l2_healthy = some env.now ∧
    (run_cycle_allowed env cfg st bstate).1.health.last_l2_check = some env.now := by
  rw [run_cycle_allowed]
  rcases hp : anchor_pending env cfg
      { st with stats := { st.stats with circuit_breaker_state := bstate } }
    with ⟨rs, st2, acts⟩
  simp [hp, SvcState.mark_l2_healthy, AnchorStats.mark_l2_healthy,
    HealthStateFields.mark_l2_healthy]

/-- C8 counterexample: a cycle that aborts at the gas gate (gas-price read
error) still marks L2 healthy.  With a gas ceiling of 50 gwei and a
failing gas-price read, the cycle performs only the gas read and the
interval sleep (so it aborted before the fetch and the batch loop),
records an `L2Connection` failure — yet `last_l2_healthy` goes from
`none` to the cycle's timestamp, because `anchor_pending` reports the
abort as an empty `Ok` and `run` marks L2 healthy on every `Ok`. -/
theorem gas_gate_abort_still_marks_l2 :
    (run_cycle { sampleEnv with gas_price := .error "gas read failed" }
        { sampleCfg with max_gas_price_gwei := 50 } sampleSvc).2 =
      [Action.gasRead, Action.sleep 60] ∧
    sampleSvc.stats.last_l2_healthy = none ∧
    (run_cycle { sampleEnv with gas_price := .error "gas read failed" }
        { sampleCfg with max_gas_price_gwei := 50 } sampleSvc).1.stats.last_l2_healthy =
      some 5 ∧
    (run_cycle { sampleEnv with gas_price := .error "gas read failed" }
        { sampleCfg with max_gas_price_gwei := 50 } sampleSvc).1.stats.l2_connection_failures = 1 := by
  refine ⟨?_, ?_, ?_, ?_⟩ <;> decide

/-- C8 (amended): `run` marks L2 healthy (service health instance and
stats) at the end of *every* breaker-allowed cycle — including cycles
that abort at the gas gate or at the sequencer fetch, since
`anchor_pending` reports those aborts as an empty `Ok` result — while a
breaker-denied cycle leaves the timestamp unchanged. -/
theorem l2_marked_healthy_every_allowed_cycle (env : CycleEnv)
    (cfg : AnchorConfig) (st : SvcState)
    (h : (st.breaker.allow_request env.now).1 = true) :
    (run_cycle env cfg st).1.stats.last_l2_healthy = some env.now ∧
    (run_cycle env cfg st).1.health.last_l2_check = some env.now ∧
    (∀ st' : SvcState, (st'.breaker.allow_request env.now).1 = false →
      (run_cycle env cfg st').1.stats.last_l2_healthy = st'.stats.last_l2_healthy) := by
  refine ⟨?_, ?_, ?_⟩
  · rcases hab : st.breaker.allow_request env.now with ⟨allow, b⟩
    rw [hab] at h
    simp only at h
    subst h
    simp only [run_cycle, hab]
    exact (run_cycle_allowed_marks_l2 env cfg _ _).1
  · rcases hab : st.breaker.allow_request env.now with ⟨allow, b⟩
    rw [hab] at h
    simp only at h
    subst h
    simp only [run_cycle, hab]
    exact (run_cycle_allowed_marks_l2 env cfg _ _).2
  · intro st' h'
    rcases hab : st'.breaker.allow_request env.now with ⟨allow, b⟩
    rw [hab] at h'
    simp only at h'
    subst h'
    simp [run_cycle, hab, run_cycle_denied]

/-- C8 amended witness: a concrete allowed cycle (closed breaker) stamps
`last_l2_healthy` with the cycle time 5. -/
theorem l2_marked_healthy_every_allowed_cycle_witness :
    (run_cycle sampleEnv sampleCfg sampleSvc).1.stats.last_l2_healthy =
      some (5 : Int) ∧
    (run_cycle sampleEnv sampleCfg sampleSvc).1.health.last_l2_check =
      some (5 : Int) :=
  ⟨(l2_marked_healthy_every_allowed_cycle sampleEnv sampleCfg sampleSvc
      (by decide)).1,
   (l2_marked_healthy_every_allowed_cycle sampleEnv sampleCfg sampleSvc
      (by decide)).2.1⟩

/-- Helper: when every attempt in the list fails, the retry loop returns
the failed result with an empty tx hash, applies exactly one
`Transaction`-category failure plus one recorded error to the state, and
its action trace is one `commitBatch` call per attempt, each followed by a
back-off sleep of `retry_delay_secs · attempt` when the attempt is not the
last one. -/
theorem retryGo_all_fail (env : CycleEnv) (cfg : AnchorConfig)
    (c : BatchCommitment) :
    ∀ (L : List Nat) (st : SvcState) (le : Option String),
      (∀ i ∈ L, ∃ e, RegistryClient.commit_batch env c i = .error e) →
      ∃ msg : String,
        retryGo env cfg c L st le =
          ({ batch_id := c.batch_id, tx_hash := [], block_number := 0,
             gas_used := 0, success := false, error := some msg },
           (st.record_failure env.now .transaction).record_error env.now
             (.transaction (.submissionFailed msg)),
           L.flatMap (fun i => Action.commitCall c.batch_id i ::
             (if i < cfg.max_retries then
               [Action.sleep (cfg.retry_delay_secs * i)] else []))) := by
  intro L
  induction L with
  | nil =>
      intro st le _
      exact ⟨le.getD "unknown error", rfl⟩
  | cons i L ih =>
      intro st le h
      obtain ⟨e, he⟩ := h i (by simp)
      obtain ⟨msg, hmsg⟩ := ih st (some e) (fun j hj => h j (by simp [hj]))
      refine ⟨msg, ?_⟩
      rw [retryGo]
      have hac : anchor_commitment env c i st =
          (.error e, st, [.commitCall c.batch_id i]) := by
        rw [anchor_commitment, he]
      simp only [hac, hmsg]
      simp [List.flatMap_cons]

/-- C6: when a batch exhausts its retry budget, `total_failed` increments
by exactly one (Transaction category: the two per-category counters that
exist are untouched), the error is recorded in the error ring, the
returned result has `success = false` and an empty tx hash, and the
action trace is one `commitBatch` submission per attempt
`i = 1..=max_retries`, each non-final failed attempt followed by a sleep
of `retry_delay_secs · i`. -/
theorem retry_budget_exhausted (env : CycleEnv) (cfg : AnchorConfig)
    (c : BatchCommitment) (st : SvcState)
    (h : ∀ i, 1 ≤ i → i ≤ cfg.max_retries →
      ∃ e, RegistryClient.commit_batch env c i = .error e) :
    (anchor_with_retry env cfg c st).1.success = false ∧
    (anchor_with_retry env cfg c st).1.tx_hash = [] ∧
    (anchor_with_retry env cfg c st).2.1.stats.total_failed =
      st.stats.total_failed + 1 ∧
    (anchor_with_retry env cfg c st).2.1.stats.total_anchored =
      st.stats.total_anchored ∧
    (anchor_with_retry env cfg c st).2.1.stats.l2_connection_failures =
      st.stats.l2_connection_failures ∧
    (anchor_with_retry env cfg c st).2.1.stats.sequencer_api_failures =
      st.stats.sequencer_api_failures ∧
    (∃ msg, (anchor_with_retry env cfg c st).1.error = some msg ∧
      (anchor_with_retry env cfg c st).2.1.health.recent_errors =
        ringPush st.health.recent_errors
          { timestamp := env.now,
            error := .transaction (.submissionFailed msg) }) ∧
    (anchor_with_retry env cfg c st).2.2 =
      (List.range' 1 cfg.max_retries).flatMap (fun i =>
        Action.commitCall c.batch_id i ::
          (if i < cfg.max_retries then
            [Action.sleep (cfg.retry_delay_secs * i)] else [])) := by
  obtain ⟨msg, hmsg⟩ := retryGo_all_fail env cfg c
    (List.range' 1 cfg.max_retries) st none
    (by
      intro i hi
      rw [List.mem_range'_1] at hi
      exact h i hi.1 (by omega))
  rw [anchor_with_retry] at *
  rw [hmsg]
  refine ⟨rfl, rfl, ?_, ?_, ?_, ?_, ⟨msg, rfl, ?_⟩, rfl⟩ <;>
    simp [SvcState.record_error, SvcState.record_failure,
      AnchorStats.record_failure, HealthStateFields.record_error]

/-- C6 witness: with every submission failing, three attempts are made
with back-offs of 5·1 and 5·2 seconds, `total_failed` ends at 1, and the
result is a failure with an empty tx hash. -/
theorem retry_budget_exhausted_witness :
    (anchor_with_retry { sampleEnv with submit := fun _ _ => .error "boom" }
        sampleCfg sampleBatch sampleSvc).1.success = false ∧
    (anchor_with_retry { sampleEnv with submit := fun _ _ => .error "boom" }
        sampleCfg sampleBatch sampleSvc).1.tx_hash = [] ∧
    (anchor_with_retry { sampleEnv with submit := fun _ _ => .error "boom" }
        sampleCfg sampleBatch sampleSvc).2.1.stats.total_failed = 1 ∧
    (anchor_with_retry { sampleEnv with submit := fun _ _ => .error "boom" }
        sampleCfg sampleBatch sampleSvc).2.2 =
      (List.range' 1 3).flatMap (fun i =>
        Action.commitCall sampleBatch.batch_id i ::
          (if i < 3 then [Action.sleep (5 * i)] else [])) := by
  have h := retry_budget_exhausted
    { sampleEnv with submit := fun _ _ => .error "boom" }
    sampleCfg sampleBatch sampleSvc
    (fun i _ _ => ⟨"boom", rfl⟩)
  exact ⟨h.1, h.2.1, h.2.2.1, h.2.2.2.2.2.2.2⟩

/-- Helper: a failing attempt leaves the service state untouched and only
prepends its `commitBatch` call (plus a back-off sleep when it is not the
last attempt) to the trace of the remaining attempts. -/
theorem retryGo_fail_step (env : CycleEnv) (cfg : AnchorConfig)
    (c : BatchCommitment) (i : Nat) (L : List Nat) (st : SvcState)
    (le : Option String) (e : String)
    (he : RegistryClient.commit_batch env c i = .error e) :
    retryGo env cfg c (i :: L) st le =
      ((retryGo env cfg c L st (some e)).1,
       (retryGo env cfg c L st (some e)).2.1,
       Action.commitCall c.batch_id i ::
         ((if i < cfg.max_retries then
             [Action.sleep (cfg.retry_delay_secs * i)] else []) ++
          (retryGo env cfg c L st (some e)).2.2)) := by
  rw [retryGo]
  have hac : anchor_commitment env c i st =
      (.error e, st, [.commitCall c.batch_id i]) := by
    rw [anchor_commitment, he]
  simp only [hac]
  rcases hr : retryGo env cfg c L st (some e) with ⟨r, st2, a2⟩
  simp

/-- Helper: an attempt whose `commitBatch` succeeds but whose single
`notifyAnchored` call fails returns the successful result immediately:
the sequencer-API failure counter is bumped and the notify error is
recorded, then the success is recorded, and the trace is exactly one
commit call followed by exactly one notify call. -/
theorem retryGo_ok_head (env : CycleEnv) (cfg : AnchorConfig)
    (c : BatchCommitment) (k : Nat) (rest : List Nat) (st : SvcState)
    (le : Option String) (txh : List Nat) (bn gu : Nat) (em : String)
    (hok : RegistryClient.commit_batch env c k = .ok (txh, bn, gu))
    (hnot : env.notify c = .error em) :
    retryGo env cfg c (k :: rest) st le =
      ({ batch_id := c.batch_id, tx_hash := '0' :: 'x' :: hexEncode txh,
         block_number := bn, gas_used := gu, success := true, error := none },
       (({ st with stats := { st.stats with sequencer_api_failures :=
             st.stats.sequencer_api_failures + 1 } }).record_error env.now
           (.sequencerApi (.notificationFailed em))).record_success env.now c
         (env.elapsed_ms c k),
       [Action.commitCall c.batch_id k,
        Action.notifyCall c.batch_id
          { chain_tx_hash := '0' :: 'x' :: hexEncode txh,
            chain_id := env.chain_id,
            block_number := some bn, gas_used := some gu }]) := by
  rw [retryGo]
  simp only [anchor_commitment, hok, hnot]

/-- Helper: any run of failing attempts followed by a successful commit
with a failing notify yields the success result, the success state built
from the original state, and a trace with exactly one notify call for the
batch. -/
theorem retryGo_prefix_ok (env : CycleEnv) (cfg : AnchorConfig)
    (c : BatchCommitment) (k : Nat) (rest : List Nat) (txh : List Nat)
    (bn gu : Nat) (em : String)
    (hok : RegistryClient.commit_batch env c k = .ok (txh, bn, gu))
    (hnot : env.notify c = .error em) :
    ∀ (P : List Nat) (st : SvcState) (le : Option String),
      (∀ i ∈ P, ∃ e, RegistryClient.commit_batch env c i = .error e) →
      (retryGo env cfg c (P ++ k :: rest) st le).1 =
        { batch_id := c.batch_id, tx_hash := '0' :: 'x' :: hexEncode txh,
          block_number := bn, gas_used := gu, success := true, error := none } ∧
      (retryGo env cfg c (P ++ k :: rest) st le).2.1 =
        (({ st with stats := { st.stats with sequencer_api_failures :=
              st.stats.sequencer_api_failures + 1 } }).record_error env.now
            (.sequencerApi (.notificationFailed em))).record_success env.now c
          (env.elapsed_ms c k) ∧
      ((retryGo env cfg c (P ++ k :: rest) st le).2.2).countP
        (Action.isNotifyFor c.batch_id) = 1 := by
  intro P
  induction P with
  | nil =>
      intro st le _
      rw [List.nil_append, retryGo_ok_head env cfg c k rest st le txh bn gu em hok hnot]
      refine ⟨rfl, rfl, ?_⟩
      simp [List.countP_cons, Action.isNotifyFor]
  | cons i P ih =>
      intro st le h
      obtain ⟨e, he⟩ := h i (by simp)
      rw [List.cons_append, retryGo_fail_step env cfg c i _ st le e he]
      obtain ⟨ih1, ih2, ih3⟩ := ih st (some e) (fun j hj => h j (by simp [hj]))
      refine ⟨ih1, ih2, ?_⟩
      by_cases hb : i < cfg.max_retries <;>
        simp [hb, List.countP_cons, List.countP_append, Action.isNotifyFor, ih3]

/-- C1: when a batch's `commitBatch` succeeds (at attempt `k`, after `k-1`
failed attempts) but its single `notifyAnchored` call fails, the batch is
still counted as anchored —`total_anchored` + 1, `consecutive_failures`
reset to 0, `total_events_anchored` + `event_count` — and the operation
returns success; the notify failure only bumps the sequencer-API failure
counter (`total_failed` is unchanged) and is recorded as an error, and
exactly one notify call is made for the batch. -/
theorem notify_failure_nonblocking (env : CycleEnv) (cfg : AnchorConfig)
    (c : BatchCommitment) (st : SvcState) (k : Nat) (txh : List Nat)
    (bn gu : Nat) (em : String)
    (hk1 : 1 ≤ k) (hk2 : k ≤ cfg.max_retries)
    (hfail : ∀ i, 1 ≤ i → i < k →
      ∃ e, RegistryClient.commit_batch env c i = .error e)
    (hok : RegistryClient.commit_batch env c k = .ok (txh, bn, gu))
    (hnot : env.notify c = .error em) :
    (anchor_with_retry env cfg c st).1.success = true ∧
    (anchor_with_retry env cfg c st).2.1.stats.total_anchored =
      st.stats.total_anchored + 1 ∧
    (anchor_with_retry env cfg c st).2.1.stats.consecutive_failures = 0 ∧
    (anchor_with_retry env cfg c st).2.1.stats.total_events_anchored =
      st.stats.total_events_anchored + c.event_count ∧
    (anchor_with_retry env cfg c st).2.1.stats.total_failed =
      st.stats.total_failed ∧
    (anchor_with_retry env cfg c st).2.1.stats.sequencer_api_failures =
      st.stats.sequencer_api_failures + 1 ∧
    (anchor_with_retry env cfg c st).2.1.health.recent_errors =
      ringPush st.health.recent_errors
        { timestamp := env.now,
          error := .sequencerApi (.notificationFailed em) } ∧
    ((anchor_with_retry env cfg c st).2.2).countP
      (Action.isNotifyFor c.batch_id) = 1 := by
  have e1 : 1 + 1 * (k - 1) = k := by omega
  have e2 : cfg.max_retries - (k - 1) + (k - 1) = cfg.max_retries := by omega
  have e3 : cfg.max_retries - (k - 1) = (cfg.max_retries - k) + 1 := by omega
  have hsplit : List.range' 1 cfg.max_retries =
      List.range' 1 (k - 1) ++ k :: List.range' (k + 1) (cfg.max_retries - k) := by
    calc List.range' 1 cfg.max_retries
        = List.range' 1 (cfg.max_retries - (k - 1) + (k - 1)) := by rw [e2]
      _ = List.range' 1 (k - 1) ++
            List.range' (1 + 1 * (k - 1)) (cfg.max_retries - (k - 1)) :=
          (List.range'_append 1 (k - 1) (cfg.max_retries - (k - 1)) 1).symm
      _ = List.range' 1 (k - 1) ++
            k :: List.range' (k + 1) (cfg.max_retries - k) := by
          rw [e1, e3, List.range'_succ]
  have hpre : ∀ i ∈ List.range' 1 (k - 1),
      ∃ e, RegistryClient.commit_batch env c i = .error e := by
    intro i hi
    rw [List.mem_range'_1] at hi
    exact hfail i hi.1 (by omega)
  obtain ⟨h1, h2, h3⟩ := retryGo_prefix_ok env cfg c k
    (List.range' (k + 1) (cfg.max_retries - k)) txh bn gu em hok hnot
    (List.range' 1 (k - 1)) st none hpre
  rw [anchor_with_retry, hsplit]
  refine ⟨by rw [h1], ?_, ?_, ?_, ?_, ?_, ?_, h3⟩ <;>
    rw [h2] <;>
    simp [SvcState.record_error, SvcState.record_success,
      AnchorStats.record_success, HealthStateFields.record_error]

/-- C1 witness: first attempt fails, second commit succeeds, notify
fails: the concrete run returns success, counts the batch as anchored,
bumps only the sequencer-API failure counter, and notifies exactly
once. -/
theorem notify_failure_nonblocking_witness :
    (anchor_with_retry
        { sampleEnv with
            submit := fun _ a => if a = 1 then .error "att1"
              else .ok (List.replicate 32 1, 100, 50000)
            notify := fun _ => .error "notify down" }
        sampleCfg sampleBatch sampleSvc).1.success = true ∧
    (anchor_with_retry
        { sampleEnv with
            submit := fun _ a => if a = 1 then .error "att1"
              else .ok (List.replicate 32 1, 100, 50000)
            notify := fun _ => .error "notify down" }
        sampleCfg sampleBatch sampleSvc).2.1.stats.total_anchored = 1 ∧
    (anchor_with_retry
        { sampleEnv with
            submit := fun _ a => if a = 1 then .error "att1"
              else .ok (List.replicate 32 1, 100, 50000)
            notify := fun _ => .error "notify down" }
        sampleCfg sampleBatch sampleSvc).2.1.stats.total_failed = 0 ∧
    (anchor_with_retry
        { sampleEnv with
            submit := fun _ a => if a = 1 then .error "att1"
              else .ok (List.replicate 32 1, 100, 50000)
            notify := fun _ => .error "notify down" }
        sampleCfg sampleBatch sampleSvc).2.1.stats.sequencer_api_failures = 1 ∧
    ((anchor_with_retry
        { sampleEnv with
            submit := fun _ a => if a = 1 then .error "att1"
              else .ok (List.replicate 32 1, 100, 50000)
            notify := fun _ => .error "notify down" }
        sampleCfg sampleBatch sampleSvc).2.2).countP
      (Action.isNotifyFor sampleBatch.batch_id) = 1 := by
  have h := notify_failure_nonblocking
    { sampleEnv with
        submit := fun _ a => if a = 1 then .error "att1"
          else .ok (List.replicate 32 1, 100, 50000)
        notify := fun _ => .error "notify down" }
    sampleCfg sampleBatch sampleSvc 2 (List.replicate 32 1) 100 50000
    "notify down" (by decide) (by decide)
    (fun i h1 h2 => ⟨"att1", by
      have hi : i = 1 := by omega
      subst hi
      rfl⟩)
    rfl rfl
  exact ⟨h.1, h.2.1, h.2.2.2.2.1, h.2.2.2.2.2.1, h.2.2.2.2.2.2.2⟩

end SetAnchor
